import Mathlib

/-!
Verification development for the per-manager torrent reconciler and search
scheduler of the Qbitrr supervisor (source file arss.py).

The Python source is shallowly embedded: torrent snapshots, tick-intent sets
and supervisor caches become explicit state records, the per-torrent
classifier and each flush step become pure functions, and calls to the
download client / media manager become an explicit effect trace.

Modelling conventions:
* Python floats (progress, availability) are embedded as rationals.
* Python sets are embedded as lists without relying on iteration order;
  insertion appends when the element is new, mirroring set.add.
* Python dicts are embedded as association lists (List (key, value)).
* Compiled regular expressions (FolderExclusionRegex, FileNameExclusionRegex)
  are embedded as abstract Bool-valued predicates on strings; the source
  applies the folder regex with re.match to the lower-cased folder name and
  the file-name regex with re.search to the base name, so the embedding
  applies the predicates to exactly those strings.
* The wall clock (time.time(), datetime.now) enters as an explicit parameter.
-/

namespace Qbitrr

/-- The qBittorrent torrent states, after qbittorrentapi.TorrentStates. -/
inductive TorrentState where
  | error
  | missingFiles
  | uploading
  | pausedUpload
  | queuedUpload
  | stalledUpload
  | checkingUpload
  | forcedUpload
  | allocating
  | downloading
  | metadataDownload
  | pausedDownload
  | queuedDownload
  | stalledDownload
  | checkingDownload
  | forcedDownload
  | checkingResumeData
  | moving
  | unknown
deriving DecidableEq, Repr

/-- Arr.is_ignored_state: states the classifier never touches. -/
def isIgnoredState : TorrentState → Bool
  | .forcedDownload | .forcedUpload | .checkingUpload | .checkingDownload
  | .checkingResumeData | .allocating | .moving => true
  | _ => false

/-- Arr.is_uploading_state. -/
def isUploadingState : TorrentState → Bool
  | .uploading | .stalledUpload | .queuedUpload => true
  | _ => false

/-- Arr.is_complete_state. -/
def isCompleteState : TorrentState → Bool
  | .uploading | .stalledUpload | .pausedUpload | .queuedUpload => true
  | _ => false

/-- Arr.is_downloading_state. -/
def isDownloadingState : TorrentState → Bool
  | .downloading | .pausedDownload => true
  | _ => false

/-- The qbittorrentapi library property TorrentStates.is_downloading, which
the source calls as torrent.state_enum.is_downloading (an external library
predicate, wider than Arr.is_downloading_state). -/
def stateEnumIsDownloading : TorrentState → Bool
  | .downloading | .metadataDownload | .pausedDownload | .queuedDownload
  | .stalledDownload | .checkingDownload | .forcedDownload => true
  | _ => false

/-- One entry of torrent.files: {id, name, priority}. -/
structure TorrentFile where
  id : Nat
  name : String
  priority : Nat
deriving DecidableEq, Repr

/-- The classifier-relevant fields of a torrent snapshot row. -/
structure Torrent where
  hash : String
  name : String
  category : String
  state : TorrentState
  progress : ℚ
  availability : ℚ
  addedOn : Int
  completionOn : Int
  lastActivity : Int
  eta : Int
  seedingTime : Int
  amountLeft : Int
  contentPath : String
  files : List TorrentFile
deriving DecidableEq, Repr

/-- Split a character list at a separator (kernel-reducible helper used in
place of String.splitOn, whose well-founded recursion does not evaluate
inside the kernel). -/
def splitCharAux (sep : Char) : List Char → List Char → List (List Char)
  | [], cur => [cur.reverse]
  | c :: rest, cur =>
      if c = sep then cur.reverse :: splitCharAux sep rest []
      else splitCharAux sep rest (c :: cur)

/-- String splitting on a separator character. -/
def splitChar (sep : Char) (s : String) : List String :=
  (splitCharAux sep s.toList []).map String.mk

/-- str.lower() on the character list (kernel-reducible). -/
def strToLower (s : String) : String :=
  String.mk (s.toList.map Char.toLower)

/-- str.upper() on the character list (kernel-reducible). -/
def strToUpper (s : String) : String :=
  String.mk (s.toList.map Char.toUpper)

/-- Whether the first string starts with the second (re.match of a literal
pattern succeeds exactly on such strings). -/
def strStartsWith (s pat : String) : Bool :=
  List.isPrefixOf pat.toList s.toList

/-- str.endswith. -/
def strEndsWith (s pat : String) : Bool :=
  List.isSuffixOf pat.toList s.toList

/-- Split a POSIX-style path into its nonempty components. -/
def pathParts (p : String) : List String :=
  (splitChar '/' p).filter (fun s => s ≠ "")

/-- pathlib PurePath.name: the final path component (empty for the root). -/
def pathName (p : String) : String :=
  ((pathParts p).getLast?).getD ""

/-- The names of pathlib file_path.parents that are nonempty, i.e. the
directory components of the path; the source filters parents with a falsy
name out via the walrus condition (folder_match := p.name). -/
def parentNames (p : String) : List String :=
  (pathParts p).dropLast

/-- pathlib PurePath.suffix: the extension of the final component including
the dot, empty when there is none or the name is a pure dotfile. -/
def pathSuffix (p : String) : String :=
  let n := pathName p
  let pieces := splitChar '.' n
  if pieces.length ≤ 1 then ""
  else if pieces.headD "" = "" ∧ pieces.length = 2 then ""
  else "." ++ ((pieces.getLast?).getD "")

/-- The per-manager configuration fields the reconciler reads. -/
structure ArrConfig where
  failedCategory : String
  recheckCategory : String
  category : String
  maximumDeletablePercentage : ℚ
  maximumEta : Int
  ignoreTorrentsYoungerThan : Int
  fileExtensionAllowlist : List String
  folderMatch : String → Bool
  nameMatch : String → Bool
  importMode : String
  autoDelete : Bool
  variantSonarr : Bool

/-- Accumulator of the file-level filtering loop of process_torrents:
_remove_files (insertion order), the running total, the list recorded into
change_priority (if any), and whether the hash was added to delete. -/
structure FFAcc where
  removeFiles : List Nat
  total : Int
  recorded : Option (List Nat)
  addDelete : Bool
deriving DecidableEq, Repr

/-- One iteration of the for-file loop of the file-level filter (rule 14 of
the classifier). A priority-0 file decrements total and continues, skipping
the record block; otherwise the extension allowlist, the folder-exclusion
regex on the lowered parent names and the file-name exclusion regex are
tried in order, and then the in-loop record block runs: on total = 0 the
hash is flagged for delete, else if something was marked and the hash is not
yet in change_priority the current _remove_files list is recorded. -/
def fileFilterStep (cfg : ArrConfig) (alreadyInChangePriority : Bool)
    (acc : FFAcc) (f : TorrentFile) : FFAcc :=
  if f.priority = 0 then { acc with total := acc.total - 1 }
  else
    let acc1 :=
      if pathSuffix f.name ∉ cfg.fileExtensionAllowlist then
        { acc with removeFiles := acc.removeFiles ++ [f.id], total := acc.total - 1 }
      else if (parentNames f.name).any (fun q => cfg.folderMatch (strToLower q)) then
        { acc with removeFiles := acc.removeFiles ++ [f.id], total := acc.total - 1 }
      else if cfg.nameMatch (pathName f.name) then
        { acc with removeFiles := acc.removeFiles ++ [f.id], total := acc.total - 1 }
      else acc
    if acc1.total = 0 then { acc1 with addDelete := true }
    else if acc1.removeFiles ≠ [] ∧ acc1.recorded = none ∧ alreadyInChangePriority = false then
      { acc1 with recorded := some acc1.removeFiles }
    else acc1

/-- The whole file-level filtering scan, starting from total = len(files). -/
def fileFilter (cfg : ArrConfig) (alreadyInChangePriority : Bool)
    (files : List TorrentFile) : FFAcc :=
  files.foldl (fileFilterStep cfg alreadyInChangePriority)
    { removeFiles := [], total := (files.length : Int), recorded := none, addDelete := false }

/-- The outcome of classifying one torrent: which intent the classifier
records for it (at most one branch of the if/elif chain runs). -/
inductive TorrentAction where
  | actDelete
  | actRecheck
  | actSkip
  | actPauseImport
  | actSkipBlacklist
  | actResume
  | actTimedSkip (alsoDelete : Bool)
  | actPause
  | actFileFilter (r : FFAcc)
  | actNone
deriving DecidableEq, Repr

/-- The per-torrent classifier of Arr.process_torrents: a direct translation
of the if/elif chain evaluated for each snapshot torrent. ownerSentToScanHashes
is manager.managed_objects[torrent.category].sent_to_scan_hashes and
alreadyInChangePriority is the membership test torrent.hash in change_priority
as seen by the file filter. -/
def classifyTorrent (cfg : ArrConfig) (timeNow : Int)
    (timedIgnoreCache timedSkip ownerSentToScanHashes : List String)
    (alreadyInChangePriority : Bool) (t : Torrent) : TorrentAction :=
  if t.category = cfg.failedCategory then .actDelete
  else if t.category = cfg.recheckCategory then .actRecheck
  else if isIgnoredState t.state = true then .actSkip
  else if t.hash ∈ timedIgnoreCache ∨ t.hash ∈ timedSkip then .actSkip
  else if cfg.maximumDeletablePercentage ≤ t.progress ∧ isCompleteState t.state = false then
    (if t.lastActivity < timeNow - cfg.maximumEta then .actDelete else .actSkip)
  else if t.hash ∈ ownerSentToScanHashes then .actSkip
  else if t.state = TorrentState.error then .actRecheck
  else if 0 < t.addedOn ∧ t.amountLeft = 0 ∧ isCompleteState t.state = true ∧
      t.contentPath ≠ "" ∧ t.completionOn < timeNow - 30 then .actPauseImport
  else if t.state = TorrentState.missingFiles then .actSkipBlacklist
  else if t.state = TorrentState.pausedDownload ∧ t.progress < 1 then .actResume
  else if t.state = TorrentState.metadataDownload ∨ t.state = TorrentState.stalledDownload then
    .actTimedSkip (decide (t.addedOn < timeNow - cfg.ignoreTorrentsYoungerThan))
  else if isUploadingState t.state = true ∧ 1 < t.seedingTime ∧ t.amountLeft = 0 ∧
      0 < t.addedOn ∧ t.contentPath ≠ "" then .actPause
  else if t.state ≠ TorrentState.pausedDownload ∧ stateEnumIsDownloading t.state = true ∧
      t.addedOn < timeNow - cfg.ignoreTorrentsYoungerThan ∧ cfg.maximumEta < t.eta then .actDelete
  else if stateEnumIsDownloading t.state = true then
    (if t.addedOn < timeNow - cfg.ignoreTorrentsYoungerThan ∧ t.availability < 1 then .actDelete
     else .actFileFilter (fileFilter cfg alreadyInChangePriority t.files))
  else .actNone

/-- From the spec, section 4.1: the guard condition of rule i of the
classifier (1-indexed as in the spec); rule numbers outside 1..14 never
apply. Used to state that the classifier is first-match. -/
def ruleCond (cfg : ArrConfig) (timeNow : Int)
    (timedIgnoreCache timedSkip ownerSentToScanHashes : List String)
    (t : Torrent) : Nat → Prop
  | 1 => t.category = cfg.failedCategory
  | 2 => t.category = cfg.recheckCategory
  | 3 => isIgnoredState t.state = true
  | 4 => t.hash ∈ timedIgnoreCache ∨ t.hash ∈ timedSkip
  | 5 => cfg.maximumDeletablePercentage ≤ t.progress ∧ isCompleteState t.state = false
  | 6 => t.hash ∈ ownerSentToScanHashes
  | 7 => t.state = TorrentState.error
  | 8 => 0 < t.addedOn ∧ t.amountLeft = 0 ∧ isCompleteState t.state = true ∧
      t.contentPath ≠ "" ∧ t.completionOn < timeNow - 30
  | 9 => t.state = TorrentState.missingFiles
  | 10 => t.state = TorrentState.pausedDownload ∧ t.progress < 1
  | 11 => t.state = TorrentState.metadataDownload ∨ t.state = TorrentState.stalledDownload
  | 12 => isUploadingState t.state = true ∧ 1 < t.seedingTime ∧ t.amountLeft = 0 ∧
      0 < t.addedOn ∧ t.contentPath ≠ ""
  | 13 => t.state ≠ TorrentState.pausedDownload ∧ stateEnumIsDownloading t.state = true ∧
      t.addedOn < timeNow - cfg.ignoreTorrentsYoungerThan ∧ cfg.maximumEta < t.eta
  | 14 => stateEnumIsDownloading t.state = true
  | _ => False

/-- From the spec, section 4.1: the action rule i takes when it is the first
rule to fire. -/
def ruleOutcome (cfg : ArrConfig) (timeNow : Int) (alreadyInChangePriority : Bool)
    (t : Torrent) : Nat → TorrentAction
  | 1 => .actDelete
  | 2 => .actRecheck
  | 3 => .actSkip
  | 4 => .actSkip
  | 5 => if t.lastActivity < timeNow - cfg.maximumEta then .actDelete else .actSkip
  | 6 => .actSkip
  | 7 => .actRecheck
  | 8 => .actPauseImport
  | 9 => .actSkipBlacklist
  | 10 => .actResume
  | 11 => .actTimedSkip (decide (t.addedOn < timeNow - cfg.ignoreTorrentsYoungerThan))
  | 12 => .actPause
  | 13 => .actDelete
  | 14 => if t.addedOn < timeNow - cfg.ignoreTorrentsYoungerThan ∧ t.availability < 1 then
        .actDelete
      else .actFileFilter (fileFilter cfg alreadyInChangePriority t.files)
  | _ => .actNone

/-- Python set.add on a list-embedded set: append when new. -/
def insertUniq (l : List String) (x : String) : List String :=
  if x ∈ l then l else l ++ [x]

/-- Python set.union on list-embedded sets. -/
def listUnion (a b : List String) : List String :=
  a ++ b.filter (fun x => x ∉ a)

/-- Python dict assignment d[k] = v on an association list. -/
def aset {β : Type} (l : List (String × β)) (k : String) (v : β) : List (String × β) :=
  if (l.find? (fun p => p.1 == k)).isSome then
    l.map (fun p => if p.1 == k then (k, v) else p)
  else l ++ [(k, v)]

/-- The observable calls a reconciler tick makes on the download client and
the media manager. -/
inductive Effect where
  | qbitPause (hashes : List String)
  | qbitResume (hashes : List String)
  | qbitRecheck (hashes : List String)
  | qbitDelete (hashes : List String) (deleteFiles : Bool)
  | qbitFilePriority (hash : String) (fileIds : List Nat) (priority : Nat)
  | mgrQueueDelete (queueId : Nat) (removeFromClient : Bool) (blocklist : Bool)
  | mgrSearchCommand (name : String) (ids : List Nat)
  | mgrScanCommand (path : String) (downloadClientId : String) (importMode : String)
deriving DecidableEq, Repr

/-- Whether an effect is a bulk resume call to the download client. -/
def Effect.isResume : Effect → Bool
  | .qbitResume _ => true
  | _ => false

/-- Whether an effect is a manager queue deletion. -/
def Effect.isQueueDelete : Effect → Bool
  | .mgrQueueDelete _ _ _ => true
  | _ => false

/-- The mutable per-reconciler state (tick intents, persistent scan markers,
TTL-cache memberships, the per-tick manager queue caches) together with the
supervisor-scoped name_cache and cache (hash to category) and the scheduler
flags search_missing / search_setup_completed.

The ExpiringSet TTL caches of utils.py (not under src/) are modelled from
the spec as plain membership sets: only membership at the instant of the
tick matters to the embedded operations, expiry is outside the model. -/
structure ArrState where
  pause : List String
  resume : List String
  recheck : List String
  delete : List String
  skipBlacklist : List String
  changePriority : List (String × List Nat)
  importTorrents : List Torrent
  sentToScan : List String
  sentToScanHashes : List String
  timedIgnoreCache : List String
  timedSkip : List String
  needsCleanup : Bool
  queueCache : List (String × Nat)
  requeueCache : List (Nat × List Nat)
  nameCache : List (String × String)
  superCache : List (String × String)
  searchMissing : Bool
  searchSetupCompleted : Bool
deriving DecidableEq, Repr

/-- An ArrState with every collection empty and every flag false. -/
def baseState : ArrState :=
  { pause := [], resume := [], recheck := [], delete := [], skipBlacklist := []
    changePriority := [], importTorrents := [], sentToScan := [], sentToScanHashes := []
    timedIgnoreCache := [], timedSkip := [], needsCleanup := false
    queueCache := [], requeueCache := [], nameCache := [], superCache := []
    searchMissing := false, searchSetupCompleted := false }

/-- Record the classifier outcome for one torrent into the tick intents:
the writes each branch of the if/elif chain performs. -/
def applyAction (st : ArrState) (t : Torrent) : TorrentAction → ArrState
  | .actDelete => { st with delete := insertUniq st.delete t.hash }
  | .actRecheck => { st with recheck := insertUniq st.recheck t.hash }
  | .actSkip => st
  | .actPauseImport =>
      { st with pause := insertUniq st.pause t.hash
                importTorrents := st.importTorrents ++ [t] }
  | .actSkipBlacklist => { st with skipBlacklist := insertUniq st.skipBlacklist t.hash }
  | .actResume => { st with resume := insertUniq st.resume t.hash }
  | .actTimedSkip alsoDelete =>
      { st with timedSkip := insertUniq st.timedSkip t.hash
                delete := if alsoDelete then insertUniq st.delete t.hash else st.delete }
  | .actPause => { st with pause := insertUniq st.pause t.hash }
  | .actFileFilter r =>
      { st with delete := if r.addDelete then insertUniq st.delete t.hash else st.delete
                changePriority :=
                  match r.recorded with
                  | some l => st.changePriority ++ [(t.hash, l)]
                  | none => st.changePriority }
  | .actNone => st

/-- The supervisor-cache bookkeeping the snapshot loop performs before
classifying each torrent: cache[hash] = category (unless the category is the
recheck category) and name_cache[hash] = name. -/
def noteTorrent (recheckCategory : String) (st : ArrState) (t : Torrent) : ArrState :=
  { st with
      superCache :=
        if t.category ≠ recheckCategory then aset st.superCache t.hash t.category
        else st.superCache
      nameCache := aset st.nameCache t.hash t.name }

/-- One iteration of the snapshot loop of Arr.process_torrents: note the
torrent in the supervisor caches, classify it, record the intent. -/
def processOneTorrent (cfg : ArrConfig) (timeNow : Int) (st : ArrState)
    (t : Torrent) : ArrState :=
  let st1 := noteTorrent cfg.recheckCategory st t
  applyAction st1 t
    (classifyTorrent cfg timeNow st1.timedIgnoreCache st1.timedSkip
      st1.sentToScanHashes ((List.lookup t.hash st1.changePriority).isSome) t)

/-- In how many of the four intent groups pause, resume, recheck and
delete-or-skip_blacklist a hash appears. -/
def intentMemCount (st : ArrState) (h : String) : Nat :=
  (if h ∈ st.pause then 1 else 0) + (if h ∈ st.resume then 1 else 0) +
  (if h ∈ st.recheck then 1 else 0) +
  (if h ∈ st.delete ∨ h ∈ st.skipBlacklist then 1 else 0)

/-- Filesystem-facing collaborators, abstracted. Modelled from the spec:
validate_and_return_torrent_file (the path validator of utils.py, not under
src/) and the filesystem enumeration of the completed folder are external
to the core and enter as an oracle: resolvePath is the validator, pathExists
the existence probe, emptyDirs the empty directories the cleanup walk
removes, and completedFolderEmptyAfter whether the completed-folder
enumeration is empty after pruning. -/
structure FsEnv where
  resolvePath : String → String
  pathExists : String → Bool
  emptyDirs : List String
  completedFolderEmptyAfter : Bool

/-- Arr._process_paused: bulk-pause the pause set and clear it. -/
def processPaused (st : ArrState) : ArrState × List Effect :=
  if st.pause = [] then (st, [])
  else ({ st with pause := [], needsCleanup := true }, [.qbitPause st.pause])

/-- Arr._process_errored: bulk-recheck the recheck set, add each hash to
timed_ignore_cache, clear the set. -/
def processErrored (st : ArrState) : ArrState × List Effect :=
  if st.recheck = [] then (st, [])
  else
    ({ st with recheck := []
               needsCleanup := true
               timedIgnoreCache := st.recheck.foldl insertUniq st.timedIgnoreCache },
     [.qbitRecheck st.recheck])

/-- The client calls Arr._process_file_priority makes while draining
change_priority: an entry whose hash resolves to a truthy name in the
supervisor name_cache yields one torrents_file_priority call with priority
0; otherwise only an error is logged. -/
def filePriorityEffects (nameCache : List (String × String)) :
    List (String × List Nat) → List Effect
  | [] => []
  | (h, fs) :: rest =>
      (match List.lookup h nameCache with
       | some n => if n = "" then [] else [Effect.qbitFilePriority h fs 0]
       | none => []) ++ filePriorityEffects nameCache rest

/-- Arr._process_file_priority: every entry is deleted from change_priority
whether or not a client call was made for it. -/
def processFilePriority (st : ArrState) : ArrState × List Effect :=
  ({ st with changePriority := []
             needsCleanup := if st.changePriority = [] then st.needsCleanup else true },
   filePriorityEffects st.nameCache st.changePriority)

/-- The loop body of Arr._process_imports over the queued import torrents.
The first guard compares torrent.hash against sent_to_scan, which in the
source holds pathlib paths (a str never equals a Path, so in Python that
guard never fires); it is embedded as written. A missing resolved path adds
the upper-cased hash to skip_blacklist; an already-sent path is skipped;
otherwise the hash is added to sent_to_scan_hashes, the scan command is
posted and the path recorded in sent_to_scan. -/
def processImportsGo (cfg : ArrConfig) (env : FsEnv) :
    List Torrent → ArrState → ArrState × List Effect
  | [], st => (st, [])
  | t :: rest, st =>
    if t.hash ∈ st.sentToScan then processImportsGo cfg env rest st
    else if env.pathExists (env.resolvePath t.contentPath) = false then
      processImportsGo cfg env rest
        { st with skipBlacklist := insertUniq st.skipBlacklist (strToUpper t.hash) }
    else if env.resolvePath t.contentPath ∈ st.sentToScan then
      processImportsGo cfg env rest st
    else
      ((processImportsGo cfg env rest
          { st with sentToScanHashes := insertUniq st.sentToScanHashes t.hash
                    sentToScan := insertUniq st.sentToScan (env.resolvePath t.contentPath) }).1,
       Effect.mgrScanCommand (env.resolvePath t.contentPath) (strToUpper t.hash) cfg.importMode ::
       (processImportsGo cfg env rest
          { st with sentToScanHashes := insertUniq st.sentToScanHashes t.hash
                    sentToScan := insertUniq st.sentToScan (env.resolvePath t.contentPath) }).2)

/-- Arr._process_imports: run the import loop when the queue is nonempty and
clear import_torrents. -/
def processImports (cfg : ArrConfig) (env : FsEnv) (st : ArrState) :
    ArrState × List Effect :=
  if st.importTorrents = [] then (st, [])
  else
    ({ (processImportsGo cfg env st.importTorrents { st with needsCleanup := true }).1 with
        importTorrents := [] },
     (processImportsGo cfg env st.importTorrents { st with needsCleanup := true }).2)

/-- Arr.process_entries: resolve each hash through the queue cache to a
(queueId, upper-cased hash) pair. -/
def processEntries (queueCache : List (String × Nat)) (hashes : List String) :
    List (Nat × String) :=
  hashes.filterMap (fun h => (List.lookup (strToUpper h) queueCache).map (fun i => (i, strToUpper h)))

/-- Arr._process_failed_individual: one manager queue deletion with
removeFromClient true and blocklist true exactly when the hash is not in
the upper-cased skip_blacklist, followed by the re-search command when the
requeue cache resolves the queue id (per-variant command name; the movie
variant stores a singleton id list). -/
def processFailedIndividual (cfg : ArrConfig) (requeueCache : List (Nat × List Nat))
    (skipBlacklistUpper : List String) (entry : Nat) (h : String) : List Effect :=
  Effect.mgrQueueDelete entry true (decide (h ∉ skipBlacklistUpper)) ::
  (match List.lookup entry requeueCache with
   | some ids =>
      if ids = [] then []
      else if cfg.variantSonarr then [Effect.mgrSearchCommand "EpisodeSearch" ids]
      else [Effect.mgrSearchCommand "MoviesSearch" ids]
   | none => [])

/-- Arr._process_failed: resolve delete ∪ skip_blacklist through the queue
cache, issue the per-entry queue deletions and re-searches, ask the client
to delete all hashes with files, evict the hashes from name_cache and the
supervisor cache, and clear both intent sets. -/
def processFailed (cfg : ArrConfig) (st : ArrState) : ArrState × List Effect :=
  if listUnion st.delete st.skipBlacklist = [] then
    ({ st with delete := [], skipBlacklist := [] }, [])
  else
    ({ st with delete := [], skipBlacklist := []
               needsCleanup := true
               nameCache := st.nameCache.filter
                 (fun p => p.1 ∉ listUnion st.delete st.skipBlacklist)
               superCache := st.superCache.filter
                 (fun p => p.1 ∉ listUnion st.delete st.skipBlacklist) },
     (processEntries st.queueCache (listUnion st.delete st.skipBlacklist)).flatMap
       (fun p => processFailedIndividual cfg st.requeueCache
          (st.skipBlacklist.map strToUpper) p.1 p.2)
     ++ [.qbitDelete (listUnion st.delete st.skipBlacklist) true])

/-- Arr._process_resume: bulk-resume the resume set, add each hash to
timed_ignore_cache, clear the set. Defined in the source but never invoked
by Arr.process. -/
def processResume (st : ArrState) : ArrState × List Effect :=
  if st.resume = [] then (st, [])
  else
    ({ st with resume := []
               needsCleanup := true
               timedIgnoreCache := st.resume.foldl insertUniq st.timedIgnoreCache },
     [.qbitResume st.resume])

/-- Arr._remove_empty_folders: the walk replaces sent_to_scan with the newly
found empty directories that were not previously recorded, and when the
completed-folder enumeration is empty afterwards both sent_to_scan and
sent_to_scan_hashes are reset to empty sets. -/
def removeEmptyFolders (env : FsEnv) (st : ArrState) : ArrState :=
  { st with
      sentToScan :=
        if env.completedFolderEmptyAfter then []
        else env.emptyDirs.filter (fun p => p ∉ st.sentToScan)
      sentToScanHashes :=
        if env.completedFolderEmptyAfter then [] else st.sentToScanHashes }

/-- Arr.folder_cleanup: gated on AutoDelete and needs_cleanup; the file
unlink walk touches only the filesystem, then the empty folders are pruned
and needs_cleanup reset. -/
def folderCleanup (cfg : ArrConfig) (env : FsEnv) (st : ArrState) : ArrState :=
  if cfg.autoDelete = false then st
  else if st.needsCleanup = false then st
  else { removeEmptyFolders env st with needsCleanup := false }

/-- Arr.process: the fixed flush order paused, errored, file_priority,
imports, failed, folder cleanup. The source defines _process_resume but
process never calls it. -/
def process (cfg : ArrConfig) (env : FsEnv) (st : ArrState) : ArrState × List Effect :=
  let r1 := processPaused st
  let r2 := processErrored r1.1
  let r3 := processFilePriority r2.1
  let r4 := processImports cfg env r3.1
  let r5 := processFailed cfg r4.1
  (folderCleanup cfg env r5.1, r1.2 ++ r2.2 ++ r3.2 ++ r4.2 ++ r5.2)

/-- One row of the Commands table of the manager catalog, reduced to the
columns arr_db_query_commands_count reads: the name and whether EndedAt is
NULL. -/
structure CommandRow where
  name : String
  endedAtIsNull : Bool
deriving DecidableEq, Repr

/-- Arr.arr_db_query_commands_count: the number of catalog command rows with
EndedAt NULL whose name ends with Search; 0 when search_missing is off. -/
def arrDbQueryCommandsCount (searchMissing : Bool) (commands : List CommandRow) : Nat :=
  if searchMissing = false then 0
  else (commands.filter (fun c => c.endedAtIsNull && strEndsWith c.name "Search")).length

/-- Arr.maybe_do_search over the local pending-search queue table (rows of
(EntryId, completed)): returns none when search_missing is off; some true
and no change when an uncompleted row for the entry already exists; some
false and no change when the active-command count has reached the limit;
otherwise inserts one uncompleted row and posts one search command for the
entry (EpisodeSearch for the episode variant, MoviesSearch otherwise). -/
def maybeDoSearch (variantSonarr searchMissing : Bool) (searchCommandLimit : Nat)
    (commands : List CommandRow) (queueTable : List (Nat × Bool)) (entryId : Nat) :
    Option Bool × List (Nat × Bool) × List Effect :=
  if searchMissing = false then (none, queueTable, [])
  else if queueTable.filter (fun r => r.2 = false ∧ r.1 = entryId) ≠ [] then
    (some true, queueTable, [])
  else if searchCommandLimit ≤ arrDbQueryCommandsCount searchMissing commands then
    (some false, queueTable, [])
  else
    (some true, queueTable ++ [(entryId, false)],
     [if variantSonarr then Effect.mgrSearchCommand "EpisodeSearch" [entryId]
      else Effect.mgrSearchCommand "MoviesSearch" [entryId]])

/-- The run_search_loop driver retries the same entry after a 30 second
sleep exactly while maybe_do_search returned False. -/
def searchLoopRetries (r : Option Bool) : Bool :=
  r == some false

/-- Arr.__init__: the initial search_current_year and delta. In reverse mode
the year starts at LastYear with delta +1, otherwise at StartYear with
delta -1. -/
def searchYearInit (searchInReverse : Bool) (startYear lastYear : Int) : Int × Int :=
  if searchInReverse then (lastYear, 1) else (startYear, -1)

/-- Arr._update_current_year as called at the end of db_update: advance the
year by delta when the current year yields no pending files. -/
def updateCurrentYear (noPendingFiles : Bool) (delta y : Int) : Int :=
  if noPendingFiles then y + delta else y

/-- The net change of search_current_year over one iteration of the
run_search_loop body: db_update may advance the year once (via
_update_current_year, when the year has no pending files), the loop then
advances it once more, and past the stopping year it is reset to the
count_start captured on loop entry. -/
def searchLoopYearStep (searchInReverse : Bool) (countStart stoppingYear delta : Int)
    (noPendingFiles : Bool) (y : Int) : Int :=
  let y1 := updateCurrentYear noPendingFiles delta y
  let y2 := y1 + delta
  if searchInReverse then (if stoppingYear < y2 then countStart else y2)
  else (if y2 < stoppingYear then countStart else y2)

/-- Arr.register_search_mode, reduced to its control flow on the flags: a
no-op once setup completed; completes immediately when search_missing is
off; downgrades search_missing to false when the manager catalog database
file does not exist; otherwise performs the database setup (tables and
pragmas, outside the model) and marks setup completed. -/
def registerSearchMode (arrDbFileExists : Bool) (st : ArrState) : ArrState :=
  if st.searchSetupCompleted then st
  else if st.searchMissing = false then { st with searchSetupCompleted := true }
  else if arrDbFileExists = false then { st with searchMissing := false }
  else { st with searchSetupCompleted := true }

/-- Whether run_search_loop returns before its while loop. -/
inductive SearchLoopStart where
  | returnedNone
  | enteredLoop
deriving DecidableEq, Repr

/-- The entry of Arr.run_search_loop: register the search mode, then return
None immediately (no command posted, no store touched) when search_missing
is false, else enter the year-walk loop. -/
def runSearchLoopStart (arrDbFileExists : Bool) (st : ArrState) :
    SearchLoopStart × ArrState × List Effect :=
  let st1 := registerSearchMode arrDbFileExists st
  if st1.searchMissing = false then (.returnedNone, st1, [])
  else (.enteredLoop, st1, [])

/-- One configuration section as ArrManager.build_arr_instances and
Arr.__init__ read it: the section name, the Managed flag, the URI, the
optional Category override and whether the completed folder exists. -/
structure SectionCfg where
  name : String
  managed : Bool
  uri : String
  categoryOverride : Option String
  completedFolderExists : Bool
deriving DecidableEq, Repr

/-- The exceptions Arr.__init__ raises before any manager-state mutation:
SkipException for Managed false, EnvironmentError for a duplicate group, a
duplicate URI or a missing completed folder. -/
inductive InitError where
  | skipDisabled
  | dupGroup
  | dupUri
  | missingCompletedFolder
deriving DecidableEq, Repr

/-- The supervisor accumulator of build_arr_instances: registered groups,
registered URIs and the managed_objects keys (categories). -/
structure MgrBuildState where
  groups : List String
  uris : List String
  managedCategories : List String
deriving DecidableEq, Repr

/-- The section-name filter re.match((rad|son)arr.*, key, IGNORECASE). -/
def isArrSection (name : String) : Bool :=
  strStartsWith (strToLower name) "sonarr" || strStartsWith (strToLower name) "radarr"

/-- The validation prefix of Arr.__init__ in source order: duplicate group,
Managed flag, duplicate URI, completed-folder existence; on success the
instance contributes its URI and its category (the Category override or the
section name). -/
def arrInit (m : MgrBuildState) (s : SectionCfg) : Except InitError (String × String) :=
  if s.name ∈ m.groups then .error .dupGroup
  else if s.managed = false then .error .skipDisabled
  else if s.uri ∈ m.uris then .error .dupUri
  else if s.completedFolderExists = false then .error .missingCompletedFolder
  else .ok (s.uri, (s.categoryOverride.getD s.name))

/-- One iteration of the section loop of build_arr_instances: non-matching
sections are ignored; a successful construction registers group, URI and
category; every raised error (SkipException, EnvironmentError,
NoSectionError/NoOptionError) is caught, logged and the loop continues with
the accumulator unchanged. -/
def buildStep (m : MgrBuildState) (s : SectionCfg) : MgrBuildState :=
  if isArrSection s.name then
    match arrInit m s with
    | .ok uriCat =>
        { groups := insertUniq m.groups s.name
          uris := insertUniq m.uris uriCat.1
          managedCategories := insertUniq m.managedCategories uriCat.2 }
    | .error _ => m
  else m

/-- ArrManager.build_arr_instances: fold the section loop over the
configuration and append the two placeholder reconcilers for the failed and
recheck categories. -/
def buildArrInstances (failedCategory recheckCategory : String)
    (sections : List SectionCfg) : MgrBuildState :=
  { sections.foldl buildStep { groups := [], uris := [], managedCategories := [] } with
      managedCategories :=
        insertUniq
          (insertUniq
            (sections.foldl buildStep
              { groups := [], uris := [], managedCategories := [] }).managedCategories
            failedCategory)
          recheckCategory }

/-- A concrete configuration for the literal scenarios: allowlist [.mkv],
folder-exclusion regex the literal pattern sample (re.match on the lowered
folder name, hence a case-folded prefix test) and a file-name exclusion
regex matching none of the scenario names. -/
def c6cfg : ArrConfig :=
  { failedCategory := "failed", recheckCategory := "recheck", category := "movies"
    maximumDeletablePercentage := mkRat 95 100, maximumEta := 86400
    ignoreTorrentsYoungerThan := 600
    fileExtensionAllowlist := [".mkv"]
    folderMatch := fun s => strStartsWith s "sample"
    nameMatch := fun _ => false
    importMode := "Move", autoDelete := false, variantSonarr := false }

/-- The file list of the file-priority-mask scenario. -/
def c6files : List TorrentFile :=
  [{ id := 0, name := "Show/Sample/clip.mkv", priority := 1 },
   { id := 1, name := "movie.mkv", priority := 1 },
   { id := 2, name := "notes.txt", priority := 1 }]

/-- The young downloading torrent of the file-priority-mask scenario. -/
def c6torrent : Torrent :=
  { hash := "C6HASH", name := "m", category := "movies", state := .downloading
    progress := mkRat 1 2, availability := 1, addedOn := 1000, completionOn := 0
    lastActivity := 1050, eta := 100, seedingTime := 0, amountLeft := 5
    contentPath := "/c/m", files := c6files }

/-- A filesystem oracle over an untouched completed folder. -/
def fsEnvPlain : FsEnv :=
  { resolvePath := fun p => p, pathExists := fun _ => true
    emptyDirs := [], completedFolderEmptyAfter := false }

/-- A filesystem oracle for a completed folder whose enumeration is empty
after pruning. -/
def fsEnvDrained : FsEnv :=
  { resolvePath := fun p => p, pathExists := fun _ => true
    emptyDirs := [], completedFolderEmptyAfter := true }

/-- A concrete reconciler state for the _process_failed scenario: one failed
hash, one missing-files hash, both resolvable through the queue cache. -/
def c3state : ArrState :=
  { baseState with
      delete := ["AAA"], skipBlacklist := ["BBB"]
      queueCache := [("AAA", 1), ("BBB", 2)]
      requeueCache := [(1, [10]), (2, [20])]
      nameCache := [("AAA", "torrent a"), ("BBB", "torrent b")]
      superCache := [("AAA", "movies"), ("BBB", "movies")] }

/-- A valid episode-manager configuration section. -/
def c8secA : SectionCfg :=
  { name := "sonarr-a", managed := true, uri := "http://a"
    categoryOverride := none, completedFolderExists := true }

/-- A section that reuses the URI of c8secA: a duplicate-URI configuration
error. -/
def c8secB : SectionCfg :=
  { name := "sonarr-b", managed := true, uri := "http://a"
    categoryOverride := none, completedFolderExists := true }

/-- A valid movie-manager configuration section. -/
def c8secC : SectionCfg :=
  { name := "radarr-c", managed := true, uri := "http://c"
    categoryOverride := none, completedFolderExists := true }

/-- Membership after a set-style insertion. -/
theorem mem_insertUniq {l : List String} {x y : String} :
    y ∈ insertUniq l x ↔ y ∈ l ∨ y = x := by
  unfold insertUniq
  split_ifs with h
  · constructor
    · exact fun hy => Or.inl hy
    · rintro (hy | rfl)
      · exact hy
      · exact h
  · simp [List.mem_append]

/-- Insertion never drops elements. -/
theorem subset_insertUniq (l : List String) (x : String) : l ⊆ insertUniq l x := by
  intro a ha
  exact mem_insertUniq.mpr (Or.inl ha)

/-- Membership in the set-style union. -/
theorem mem_listUnion {a b : List String} {x : String} :
    x ∈ listUnion a b ↔ x ∈ a ∨ x ∈ b := by
  unfold listUnion
  simp only [List.mem_append, List.mem_filter, decide_eq_true_eq]
  constructor
  · rintro (h | ⟨h, _⟩)
    · exact Or.inl h
    · exact Or.inr h
  · rintro (h | h)
    · exact Or.inl h
    · by_cases ha : x ∈ a
      · exact Or.inl ha
      · exact Or.inr ⟨h, ha⟩

/-- The set-style union of duplicate-free lists is duplicate-free. -/
theorem listUnion_nodup {a b : List String} (ha : a.Nodup) (hb : b.Nodup) :
    (listUnion a b).Nodup := by
  unfold listUnion
  refine List.Nodup.append ha (hb.filter _) ?_
  intro x hxa hxb
  have := (List.mem_filter.mp hxb).2
  simp only [decide_eq_true_eq] at this
  exact this hxa

/-- A pointwise-identity map is the identity. -/
theorem map_id_of_mem {α : Type} {f : α → α} :
    ∀ {l : List α}, (∀ x ∈ l, f x = x) → l.map f = l
  | [], _ => rfl
  | x :: xs, h => by
      simp only [List.map_cons, h x (List.mem_cons_self x xs)]
      rw [map_id_of_mem (fun y hy => h y (List.mem_cons_of_mem x hy))]

/-- Looking up a key of T in an association list filtered to keys outside T
finds nothing. -/
theorem lookup_filter_none {β : Type} (T : List String) :
    ∀ (l : List (String × β)) (h : String), h ∈ T →
      List.lookup h (l.filter (fun p => p.1 ∉ T)) = none := by
  intro l
  induction l with
  | nil => intro h _; rfl
  | cons p rest ih =>
      intro h hT
      by_cases hp : p.1 ∈ T
      · have : (fun q : String × β => decide (q.1 ∉ T)) p = false := by
          simp [hp]
        rw [List.filter_cons_of_neg (by simpa using this)]
        exact ih h hT
      · rw [List.filter_cons_of_pos (by simpa using hp)]
        have hne : (h == p.1) = false := by
          simp only [beq_eq_false_iff_ne, ne_eq]
          intro he
          exact hp (he ▸ hT)
        simp only [List.lookup, hne]
        exact ih h hT

/-- The classifier is first-match: when rule i applies and no earlier rule
does, the classifier takes exactly the outcome of rule i. -/
theorem classify_first_match (cfg : ArrConfig) (timeNow : Int)
    (tic tsk own : List String) (acp : Bool) (t : Torrent) :
    ∀ i : Nat, ruleCond cfg timeNow tic tsk own t i →
      (∀ j, j < i → ¬ ruleCond cfg timeNow tic tsk own t j) →
      classifyTorrent cfg timeNow tic tsk own acp t = ruleOutcome cfg timeNow acp t i := by
  intro i hi hprev
  rcases i with _ | _ | _ | _ | _ | _ | _ | _ | _ | _ | _ | _ | _ | _ | _ | n
  · exact hi.elim
  · have hc : t.category = cfg.failedCategory := hi
    unfold classifyTorrent
    rw [if_pos hc]
    rfl
  · have hc : t.category = cfg.recheckCategory := hi
    have g1 : ¬ (t.category = cfg.failedCategory) := hprev 1 (by omega)
    unfold classifyTorrent
    rw [if_neg g1, if_pos hc]
    rfl
  · have hc : isIgnoredState t.state = true := hi
    have g1 : ¬ (t.category = cfg.failedCategory) := hprev 1 (by omega)
    have g2 : ¬ (t.category = cfg.recheckCategory) := hprev 2 (by omega)
    unfold classifyTorrent
    rw [if_neg g1, if_neg g2, if_pos hc]
    rfl
  · have hc : t.hash ∈ tic ∨ t.hash ∈ tsk := hi
    have g1 : ¬ (t.category = cfg.failedCategory) := hprev 1 (by omega)
    have g2 : ¬ (t.category = cfg.recheckCategory) := hprev 2 (by omega)
    have g3 : ¬ (isIgnoredState t.state = true) := hprev 3 (by omega)
    unfold classifyTorrent
    rw [if_neg g1, if_neg g2, if_neg g3, if_pos hc]
    rfl
  · have hc : cfg.maximumDeletablePercentage ≤ t.progress ∧ isCompleteState t.state = false := hi
    have g1 : ¬ (t.category = cfg.failedCategory) := hprev 1 (by omega)
    have g2 : ¬ (t.category = cfg.recheckCategory) := hprev 2 (by omega)
    have g3 : ¬ (isIgnoredState t.state = true) := hprev 3 (by omega)
    have g4 : ¬ (t.hash ∈ tic ∨ t.hash ∈ tsk) := hprev 4 (by omega)
    unfold classifyTorrent
    rw [if_neg g1, if_neg g2, if_neg g3, if_neg g4, if_pos hc]
    rfl
  · have hc : t.hash ∈ own := hi
    have g1 : ¬ (t.category = cfg.failedCategory) := hprev 1 (by omega)
    have g2 : ¬ (t.category = cfg.recheckCategory) := hprev 2 (by omega)
    have g3 : ¬ (isIgnoredState t.state = true) := hprev 3 (by omega)
    have g4 : ¬ (t.hash ∈ tic ∨ t.hash ∈ tsk) := hprev 4 (by omega)
    have g5 : ¬ (cfg.maximumDeletablePercentage ≤ t.progress ∧ isCompleteState t.state = false) := hprev 5 (by omega)
    unfold classifyTorrent
    rw [if_neg g1, if_neg g2, if_neg g3, if_neg g4, if_neg g5, if_pos hc]
    rfl
  · have hc : t.state = TorrentState.error := hi
    have g1 : ¬ (t.category = cfg.failedCategory) := hprev 1 (by omega)
    have g2 : ¬ (t.category = cfg.recheckCategory) := hprev 2 (by omega)
    have g3 : ¬ (isIgnoredState t.state = true) := hprev 3 (by omega)
    have g4 : ¬ (t.hash ∈ tic ∨ t.hash ∈ tsk) := hprev 4 (by omega)
    have g5 : ¬ (cfg.maximumDeletablePercentage ≤ t.progress ∧ isCompleteState t.state = false) := hprev 5 (by omega)
    have g6 : ¬ (t.hash ∈ own) := hprev 6 (by omega)
    unfold classifyTorrent
    rw [if_neg g1, if_neg g2, if_neg g3, if_neg g4, if_neg g5, if_neg g6, if_pos hc]
    rfl
  · have hc : 0 < t.addedOn ∧ t.amountLeft = 0 ∧ isCompleteState t.state = true ∧ t.contentPath ≠ "" ∧ t.completionOn < timeNow - 30 := hi
    have g1 : ¬ (t.category = cfg.failedCategory) := hprev 1 (by omega)
    have g2 : ¬ (t.category = cfg.recheckCategory) := hprev 2 (by omega)
    have g3 : ¬ (isIgnoredState t.state = true) := hprev 3 (by omega)
    have g4 : ¬ (t.hash ∈ tic ∨ t.hash ∈ tsk) := hprev 4 (by omega)
    have g5 : ¬ (cfg.maximumDeletablePercentage ≤ t.progress ∧ isCompleteState t.state = false) := hprev 5 (by omega)
    have g6 : ¬ (t.hash ∈ own) := hprev 6 (by omega)
    have g7 : ¬ (t.state = TorrentState.error) := hprev 7 (by omega)
    unfold classifyTorrent
    rw [if_neg g1, if_neg g2, if_neg g3, if_neg g4, if_neg g5, if_neg g6, if_neg g7, if_pos hc]
    rfl
  · have hc : t.state = TorrentState.missingFiles := hi
    have g1 : ¬ (t.category = cfg.failedCategory) := hprev 1 (by omega)
    have g2 : ¬ (t.category = cfg.recheckCategory) := hprev 2 (by omega)
    have g3 : ¬ (isIgnoredState t.state = true) := hprev 3 (by omega)
    have g4 : ¬ (t.hash ∈ tic ∨ t.hash ∈ tsk) := hprev 4 (by omega)
    have g5 : ¬ (cfg.maximumDeletablePercentage ≤ t.progress ∧ isCompleteState t.state = false) := hprev 5 (by omega)
    have g6 : ¬ (t.hash ∈ own) := hprev 6 (by omega)
    have g7 : ¬ (t.state = TorrentState.error) := hprev 7 (by omega)
    have g8 : ¬ (0 < t.addedOn ∧ t.amountLeft = 0 ∧ isCompleteState t.state = true ∧ t.contentPath ≠ "" ∧ t.completionOn < timeNow - 30) := hprev 8 (by omega)
    unfold classifyTorrent
    rw [if_neg g1, if_neg g2, if_neg g3, if_neg g4, if_neg g5, if_neg g6, if_neg g7, if_neg g8, if_pos hc]
    rfl
  · have hc : t.state = TorrentState.pausedDownload ∧ t.progress < 1 := hi
    have g1 : ¬ (t.category = cfg.failedCategory) := hprev 1 (by omega)
    have g2 : ¬ (t.category = cfg.recheckCategory) := hprev 2 (by omega)
    have g3 : ¬ (isIgnoredState t.state = true) := hprev 3 (by omega)
    have g4 : ¬ (t.hash ∈ tic ∨ t.hash ∈ tsk) := hprev 4 (by omega)
    have g5 : ¬ (cfg.maximumDeletablePercentage ≤ t.progress ∧ isCompleteState t.state = false) := hprev 5 (by omega)
    have g6 : ¬ (t.hash ∈ own) := hprev 6 (by omega)
    have g7 : ¬ (t.state = TorrentState.error) := hprev 7 (by omega)
    have g8 : ¬ (0 < t.addedOn ∧ t.amountLeft = 0 ∧ isCompleteState t.state = true ∧ t.contentPath ≠ "" ∧ t.completionOn < timeNow - 30) := hprev 8 (by omega)
    have g9 : ¬ (t.state = TorrentState.missingFiles) := hprev 9 (by omega)
    unfold classifyTorrent
    rw [if_neg g1, if_neg g2, if_neg g3, if_neg g4, if_neg g5, if_neg g6, if_neg g7, if_neg g8, if_neg g9, if_pos hc]
    rfl
  · have hc : t.state = TorrentState.metadataDownload ∨ t.state = TorrentState.stalledDownload := hi
    have g1 : ¬ (t.category = cfg.failedCategory) := hprev 1 (by omega)
    have g2 : ¬ (t.category = cfg.recheckCategory) := hprev 2 (by omega)
    have g3 : ¬ (isIgnoredState t.state = true) := hprev 3 (by omega)
    have g4 : ¬ (t.hash ∈ tic ∨ t.hash ∈ tsk) := hprev 4 (by omega)
    have g5 : ¬ (cfg.maximumDeletablePercentage ≤ t.progress ∧ isCompleteState t.state = false) := hprev 5 (by omega)
    have g6 : ¬ (t.hash ∈ own) := hprev 6 (by omega)
    have g7 : ¬ (t.state = TorrentState.error) := hprev 7 (by omega)
    have g8 : ¬ (0 < t.addedOn ∧ t.amountLeft = 0 ∧ isCompleteState t.state = true ∧ t.contentPath ≠ "" ∧ t.completionOn < timeNow - 30) := hprev 8 (by omega)
    have g9 : ¬ (t.state = TorrentState.missingFiles) := hprev 9 (by omega)
    have g10 : ¬ (t.state = TorrentState.pausedDownload ∧ t.progress < 1) := hprev 10 (by omega)
    unfold classifyTorrent
    rw [if_neg g1, if_neg g2, if_neg g3, if_neg g4, if_neg g5, if_neg g6, if_neg g7, if_neg g8, if_neg g9, if_neg g10, if_pos hc]
    rfl
  · have hc : isUploadingState t.state = true ∧ 1 < t.seedingTime ∧ t.amountLeft = 0 ∧ 0 < t.addedOn ∧ t.contentPath ≠ "" := hi
    have g1 : ¬ (t.category = cfg.failedCategory) := hprev 1 (by omega)
    have g2 : ¬ (t.category = cfg.recheckCategory) := hprev 2 (by omega)
    have g3 : ¬ (isIgnoredState t.state = true) := hprev 3 (by omega)
    have g4 : ¬ (t.hash ∈ tic ∨ t.hash ∈ tsk) := hprev 4 (by omega)
    have g5 : ¬ (cfg.maximumDeletablePercentage ≤ t.progress ∧ isCompleteState t.state = false) := hprev 5 (by omega)
    have g6 : ¬ (t.hash ∈ own) := hprev 6 (by omega)
    have g7 : ¬ (t.state = TorrentState.error) := hprev 7 (by omega)
    have g8 : ¬ (0 < t.addedOn ∧ t.amountLeft = 0 ∧ isCompleteState t.state = true ∧ t.contentPath ≠ "" ∧ t.completionOn < timeNow - 30) := hprev 8 (by omega)
    have g9 : ¬ (t.state = TorrentState.missingFiles) := hprev 9 (by omega)
    have g10 : ¬ (t.state = TorrentState.pausedDownload ∧ t.progress < 1) := hprev 10 (by omega)
    have g11 : ¬ (t.state = TorrentState.metadataDownload ∨ t.state = TorrentState.stalledDownload) := hprev 11 (by omega)
    unfold classifyTorrent
    rw [if_neg g1, if_neg g2, if_neg g3, if_neg g4, if_neg g5, if_neg g6, if_neg g7, if_neg g8, if_neg g9, if_neg g10, if_neg g11, if_pos hc]
    rfl
  · have hc : t.state ≠ TorrentState.pausedDownload ∧ stateEnumIsDownloading t.state = true ∧ t.addedOn < timeNow - cfg.ignoreTorrentsYoungerThan ∧ cfg.maximumEta < t.eta := hi
    have g1 : ¬ (t.category = cfg.failedCategory) := hprev 1 (by omega)
    have g2 : ¬ (t.category = cfg.recheckCategory) := hprev 2 (by omega)
    have g3 : ¬ (isIgnoredState t.state = true) := hprev 3 (by omega)
    have g4 : ¬ (t.hash ∈ tic ∨ t.hash ∈ tsk) := hprev 4 (by omega)
    have g5 : ¬ (cfg.maximumDeletablePercentage ≤ t.progress ∧ isCompleteState t.state = false) := hprev 5 (by omega)
    have g6 : ¬ (t.hash ∈ own) := hprev 6 (by omega)
    have g7 : ¬ (t.state = TorrentState.error) := hprev 7 (by omega)
    have g8 : ¬ (0 < t.addedOn ∧ t.amountLeft = 0 ∧ isCompleteState t.state = true ∧ t.contentPath ≠ "" ∧ t.completionOn < timeNow - 30) := hprev 8 (by omega)
    have g9 : ¬ (t.state = TorrentState.missingFiles) := hprev 9 (by omega)
    have g10 : ¬ (t.state = TorrentState.pausedDownload ∧ t.progress < 1) := hprev 10 (by omega)
    have g11 : ¬ (t.state = TorrentState.metadataDownload ∨ t.state = TorrentState.stalledDownload) := hprev 11 (by omega)
    have g12 : ¬ (isUploadingState t.state = true ∧ 1 < t.seedingTime ∧ t.amountLeft = 0 ∧ 0 < t.addedOn ∧ t.contentPath ≠ "") := hprev 12 (by omega)
    unfold classifyTorrent
    rw [if_neg g1, if_neg g2, if_neg g3, if_neg g4, if_neg g5, if_neg g6, if_neg g7, if_neg g8, if_neg g9, if_neg g10, if_neg g11, if_neg g12, if_pos hc]
    rfl
  · have hc : stateEnumIsDownloading t.state = true := hi
    have g1 : ¬ (t.category = cfg.failedCategory) := hprev 1 (by omega)
    have g2 : ¬ (t.category = cfg.recheckCategory) := hprev 2 (by omega)
    have g3 : ¬ (isIgnoredState t.state = true) := hprev 3 (by omega)
    have g4 : ¬ (t.hash ∈ tic ∨ t.hash ∈ tsk) := hprev 4 (by omega)
    have g5 : ¬ (cfg.maximumDeletablePercentage ≤ t.progress ∧ isCompleteState t.state = false) := hprev 5 (by omega)
    have g6 : ¬ (t.hash ∈ own) := hprev 6 (by omega)
    have g7 : ¬ (t.state = TorrentState.error) := hprev 7 (by omega)
    have g8 : ¬ (0 < t.addedOn ∧ t.amountLeft = 0 ∧ isCompleteState t.state = true ∧ t.contentPath ≠ "" ∧ t.completionOn < timeNow - 30) := hprev 8 (by omega)
    have g9 : ¬ (t.state = TorrentState.missingFiles) := hprev 9 (by omega)
    have g10 : ¬ (t.state = TorrentState.pausedDownload ∧ t.progress < 1) := hprev 10 (by omega)
    have g11 : ¬ (t.state = TorrentState.metadataDownload ∨ t.state = TorrentState.stalledDownload) := hprev 11 (by omega)
    have g12 : ¬ (isUploadingState t.state = true ∧ 1 < t.seedingTime ∧ t.amountLeft = 0 ∧ 0 < t.addedOn ∧ t.contentPath ≠ "") := hprev 12 (by omega)
    have g13 : ¬ (t.state ≠ TorrentState.pausedDownload ∧ stateEnumIsDownloading t.state = true ∧ t.addedOn < timeNow - cfg.ignoreTorrentsYoungerThan ∧ cfg.maximumEta < t.eta) := hprev 13 (by omega)
    unfold classifyTorrent
    rw [if_neg g1, if_neg g2, if_neg g3, if_neg g4, if_neg g5, if_neg g6, if_neg g7, if_neg g8, if_neg g9, if_neg g10, if_neg g11, if_neg g12, if_neg g13, if_pos hc]
    rfl
  · exact hi.elim

/-- Each classifier outcome touches at most one of the four intent groups
for a hash not yet recorded in any of them. -/
theorem intentMemCount_applyAction (st : ArrState) (t : Torrent) (a : TorrentAction)
    (h1 : t.hash ∉ st.pause) (h2 : t.hash ∉ st.resume) (h3 : t.hash ∉ st.recheck)
    (h4 : t.hash ∉ st.delete) (h5 : t.hash ∉ st.skipBlacklist) :
    intentMemCount (applyAction st t a) t.hash ≤ 1 := by
  have hself : ∀ l : List String, t.hash ∈ insertUniq l t.hash :=
    fun l => mem_insertUniq.mpr (Or.inr rfl)
  cases a with
  | actDelete => simp [applyAction, intentMemCount, hself, h1, h2, h3, h5]
  | actRecheck => simp [applyAction, intentMemCount, hself, h1, h2, h4, h5]
  | actSkip => simp [applyAction, intentMemCount, h1, h2, h3, h4, h5]
  | actPauseImport => simp [applyAction, intentMemCount, hself, h2, h3, h4, h5]
  | actSkipBlacklist => simp [applyAction, intentMemCount, hself, h1, h2, h3, h4]
  | actResume => simp [applyAction, intentMemCount, hself, h1, h3, h4, h5]
  | actTimedSkip d =>
      cases d <;> simp [applyAction, intentMemCount, hself, h1, h2, h3, h4, h5]
  | actPause => simp [applyAction, intentMemCount, hself, h2, h3, h4, h5]
  | actFileFilter r =>
      rcases r with ⟨rf, tot, rec, ad⟩
      cases ad <;> rcases rec with _ | l <;>
        simp [applyAction, intentMemCount, hself, h1, h2, h3, h4, h5]
  | actNone => simp [applyAction, intentMemCount, h1, h2, h3, h4, h5]

/-- C1: for every torrent of a tick whose hash is not yet in any intent set,
the classifier of process_torrents fires exactly one branch: after the
torrent is classified its hash is in at most one of the groups pause,
resume, recheck and delete-or-skip_blacklist, and whenever rule i of the
spec (section 4.1) applies while no earlier rule does, the classifier takes
exactly rule i's outcome (rules are evaluated top-to-bottom, first match
only). -/
theorem C1_single_branch_first_match (cfg : ArrConfig) (timeNow : Int)
    (st : ArrState) (t : Torrent)
    (hfresh : t.hash ∉ st.pause ∧ t.hash ∉ st.resume ∧ t.hash ∉ st.recheck ∧
      t.hash ∉ st.delete ∧ t.hash ∉ st.skipBlacklist) :
    intentMemCount (processOneTorrent cfg timeNow st t) t.hash ≤ 1 ∧
    (∀ i : Nat,
      ruleCond cfg timeNow st.timedIgnoreCache st.timedSkip st.sentToScanHashes t i →
      (∀ j, j < i →
        ¬ ruleCond cfg timeNow st.timedIgnoreCache st.timedSkip st.sentToScanHashes t j) →
      classifyTorrent cfg timeNow st.timedIgnoreCache st.timedSkip st.sentToScanHashes
        ((List.lookup t.hash st.changePriority).isSome) t =
        ruleOutcome cfg timeNow ((List.lookup t.hash st.changePriority).isSome) t i) := by
  obtain ⟨h1, h2, h3, h4, h5⟩ := hfresh
  constructor
  · exact intentMemCount_applyAction (noteTorrent cfg.recheckCategory st t) t _ h1 h2 h3 h4 h5
  · exact classify_first_match cfg timeNow st.timedIgnoreCache st.timedSkip
      st.sentToScanHashes ((List.lookup t.hash st.changePriority).isSome) t

/-- C1 witness: the single-branch theorem applied to a concrete young
downloading torrent over the empty tick state. -/
theorem C1_witness :
    (c6torrent.hash ∉ baseState.pause ∧ c6torrent.hash ∉ baseState.resume ∧
     c6torrent.hash ∉ baseState.recheck ∧ c6torrent.hash ∉ baseState.delete ∧
     c6torrent.hash ∉ baseState.skipBlacklist) ∧
    (intentMemCount (processOneTorrent c6cfg 1100 baseState c6torrent) c6torrent.hash ≤ 1 ∧
     (∀ i : Nat,
      ruleCond c6cfg 1100 baseState.timedIgnoreCache baseState.timedSkip
        baseState.sentToScanHashes c6torrent i →
      (∀ j, j < i →
        ¬ ruleCond c6cfg 1100 baseState.timedIgnoreCache baseState.timedSkip
            baseState.sentToScanHashes c6torrent j) →
      classifyTorrent c6cfg 1100 baseState.timedIgnoreCache baseState.timedSkip
        baseState.sentToScanHashes
        ((List.lookup c6torrent.hash baseState.changePriority).isSome) c6torrent =
        ruleOutcome c6cfg 1100
          ((List.lookup c6torrent.hash baseState.changePriority).isSome) c6torrent i)) :=
  ⟨by decide, C1_single_branch_first_match c6cfg 1100 baseState c6torrent (by decide)⟩

/-- Pausing neither reads nor writes the resume set. -/
theorem processPaused_resume_eq (st : ArrState) : (processPaused st).1.resume = st.resume := by
  unfold processPaused
  split_ifs <;> rfl

/-- Pausing emits no resume call. -/
theorem processPaused_no_resume (st : ArrState) :
    ∀ e ∈ (processPaused st).2, e.isResume = false := by
  intro e he
  unfold processPaused at he
  split_ifs at he
  · simp at he
  · simp only [List.mem_singleton] at he
    subst he
    rfl

/-- Rechecking neither reads nor writes the resume set. -/
theorem processErrored_resume_eq (st : ArrState) :
    (processErrored st).1.resume = st.resume := by
  unfold processErrored
  split_ifs <;> rfl

/-- Rechecking emits no resume call. -/
theorem processErrored_no_resume (st : ArrState) :
    ∀ e ∈ (processErrored st).2, e.isResume = false := by
  intro e he
  unfold processErrored at he
  split_ifs at he
  · simp at he
  · simp only [List.mem_singleton] at he
    subst he
    rfl

/-- The file-priority drain emits no resume call. -/
theorem filePriorityEffects_no_resume (nc : List (String × String)) :
    ∀ (l : List (String × List Nat)), ∀ e ∈ filePriorityEffects nc l, e.isResume = false := by
  intro l
  induction l with
  | nil => intro e he; simp [filePriorityEffects] at he
  | cons p rest ih =>
      intro e he
      obtain ⟨h, fs⟩ := p
      simp only [filePriorityEffects, List.mem_append] at he
      rcases he with he | he
      · rcases hl : List.lookup h nc with _ | n <;> rw [hl] at he
        · simp at he
        · by_cases hn : n = ""
          · simp [hn] at he
          · simp [hn] at he
            subst he
            rfl
      · exact ih e he

/-- Import scanning preserves the resume set, only grows
sent_to_scan_hashes, and emits no resume call. -/
theorem processImportsGo_props (cfg : ArrConfig) (env : FsEnv) :
    ∀ (ts : List Torrent) (st : ArrState),
      (processImportsGo cfg env ts st).1.resume = st.resume ∧
      st.sentToScanHashes ⊆ (processImportsGo cfg env ts st).1.sentToScanHashes ∧
      ∀ e ∈ (processImportsGo cfg env ts st).2, e.isResume = false := by
  intro ts
  induction ts with
  | nil =>
      intro st
      refine ⟨rfl, fun a ha => ha, ?_⟩
      intro e he
      simp [processImportsGo] at he
  | cons t rest ih =>
      intro st
      unfold processImportsGo
      split_ifs with hA hB hC
      · exact ih st
      · exact ih _
      · exact ih st
      · refine ⟨(ih _).1, ?_, ?_⟩
        · exact fun x hx => (ih _).2.1 (subset_insertUniq _ _ hx)
        · intro e he
          simp only [List.mem_cons] at he
          rcases he with rfl | he
          · rfl
          · exact (ih _).2.2 e he

/-- The import step preserves the resume set. -/
theorem processImports_resume_eq (cfg : ArrConfig) (env : FsEnv) (st : ArrState) :
    (processImports cfg env st).1.resume = st.resume := by
  unfold processImports
  split_ifs
  · rfl
  · exact (processImportsGo_props cfg env st.importTorrents _).1

/-- The import step emits no resume call. -/
theorem processImports_no_resume (cfg : ArrConfig) (env : FsEnv) (st : ArrState) :
    ∀ e ∈ (processImports cfg env st).2, e.isResume = false := by
  intro e he
  unfold processImports at he
  split_ifs at he
  · simp at he
  · exact (processImportsGo_props cfg env st.importTorrents _).2.2 e he

/-- A failed-queue entry produces only queue deletions and search commands. -/
theorem processFailedIndividual_no_resume (cfg : ArrConfig) (rq : List (Nat × List Nat))
    (sb : List String) (entry : Nat) (h : String) :
    ∀ e ∈ processFailedIndividual cfg rq sb entry h, e.isResume = false := by
  intro e he
  unfold processFailedIndividual at he
  simp only [List.mem_cons] at he
  rcases he with rfl | he
  · rfl
  · rcases hl : List.lookup entry rq with _ | ids <;> rw [hl] at he
    · simp at he
    · by_cases hid : ids = []
      · simp [hid] at he
      · by_cases hv : cfg.variantSonarr
        · simp [hid, hv] at he
          subst he
          rfl
        · simp [hid, hv] at he
          subst he
          rfl

/-- The failure flush preserves the resume set. -/
theorem processFailed_resume_eq (cfg : ArrConfig) (st : ArrState) :
    (processFailed cfg st).1.resume = st.resume := by
  unfold processFailed
  split_ifs <;> rfl

/-- The failure flush emits no resume call. -/
theorem processFailed_no_resume (cfg : ArrConfig) (st : ArrState) :
    ∀ e ∈ (processFailed cfg st).2, e.isResume = false := by
  intro e he
  unfold processFailed at he
  split_ifs at he
  · simp at he
  · simp only [List.mem_append, List.mem_flatMap, List.mem_singleton] at he
    rcases he with ⟨p, _, hp⟩ | rfl
    · exact processFailedIndividual_no_resume cfg _ _ p.1 p.2 e hp
    · rfl

/-- Folder cleanup preserves the resume set. -/
theorem folderCleanup_resume_eq (cfg : ArrConfig) (env : FsEnv) (st : ArrState) :
    (folderCleanup cfg env st).resume = st.resume := by
  unfold folderCleanup
  split_ifs <;> rfl

/-- C2: the claimed flush order ends with a bulk resume, but Arr.process
never invokes _process_resume: the flush of a tick emits no resume call to
the download client and leaves the resume set untouched, while the
_process_resume defined in the source would have resumed the set (shown on
a concrete state). The hashes the classifier placed in resume are therefore
not resumed in that tick. -/
theorem C2_resume_never_flushed (cfg : ArrConfig) (env : FsEnv) (st : ArrState) :
    (process cfg env st).1.resume = st.resume ∧
    (∀ e ∈ (process cfg env st).2, e.isResume = false) ∧
    processResume { baseState with resume := ["RESUMEHASH"] } =
      ({ baseState with needsCleanup := true, timedIgnoreCache := ["RESUMEHASH"] },
       [Effect.qbitResume ["RESUMEHASH"]]) := by
  refine ⟨?_, ?_, by decide⟩
  · show (folderCleanup cfg env (processFailed cfg (processImports cfg env
      (processFilePriority (processErrored (processPaused st).1).1).1).1).1).resume = st.resume
    rw [folderCleanup_resume_eq, processFailed_resume_eq, processImports_resume_eq]
    show (processFilePriority (processErrored (processPaused st).1).1).1.resume = st.resume
    rw [show (processFilePriority (processErrored (processPaused st).1).1).1.resume =
        (processErrored (processPaused st).1).1.resume from rfl,
      processErrored_resume_eq, processPaused_resume_eq]
  · intro e he
    have hmem : e ∈ (processPaused st).2 ∨ e ∈ (processErrored (processPaused st).1).2 ∨
        e ∈ (processFilePriority (processErrored (processPaused st).1).1).2 ∨
        e ∈ (processImports cfg env
          (processFilePriority (processErrored (processPaused st).1).1).1).2 ∨
        e ∈ (processFailed cfg (processImports cfg env
          (processFilePriority (processErrored (processPaused st).1).1).1).1).2 := by
      have : (process cfg env st).2 = (processPaused st).2 ++
          (processErrored (processPaused st).1).2 ++
          (processFilePriority (processErrored (processPaused st).1).1).2 ++
          (processImports cfg env
            (processFilePriority (processErrored (processPaused st).1).1).1).2 ++
          (processFailed cfg (processImports cfg env
            (processFilePriority (processErrored (processPaused st).1).1).1).1).2 := rfl
      rw [this] at he
      simp only [List.mem_append] at he
      tauto
    rcases hmem with h | h | h | h | h
    · exact processPaused_no_resume st e h
    · exact processErrored_no_resume _ e h
    · exact filePriorityEffects_no_resume _ _ e h
    · exact processImports_no_resume cfg env _ e h
    · exact processFailed_no_resume cfg _ e h

/-- One resolved failed entry yields exactly one manager queue deletion,
with removeFromClient true and blocklist set exactly when the hash is not
in the skip set. -/
theorem processFailedIndividual_queueDeletes (cfg : ArrConfig) (rq : List (Nat × List Nat))
    (sb : List String) (entry : Nat) (h : String) :
    (processFailedIndividual cfg rq sb entry h).filter Effect.isQueueDelete =
      [Effect.mgrQueueDelete entry true (decide (h ∉ sb))] := by
  unfold processFailedIndividual
  rw [List.filter_cons_of_pos rfl]
  congr 1
  rcases hl : List.lookup entry rq with _ | ids
  · rfl
  · by_cases hid : ids = []
    · simp [hid]
    · by_cases hv : cfg.variantSonarr <;> simp [hid, hv, Effect.isQueueDelete]

/-- The queue deletions emitted while draining a set of failed hashes are
exactly one per hash that resolves through the queue cache, in order. -/
theorem processFailed_queueDelete_trace (cfg : ArrConfig) (qc : List (String × Nat))
    (rq : List (Nat × List Nat)) (sb : List String) :
    ∀ (T : List String), (∀ h ∈ T, strToUpper h = h) →
      ((processEntries qc T).flatMap
        (fun p => processFailedIndividual cfg rq sb p.1 p.2)).filter Effect.isQueueDelete =
      T.filterMap (fun h => (List.lookup h qc).map
        (fun q => Effect.mgrQueueDelete q true (decide (h ∉ sb)))) := by
  intro T
  induction T with
  | nil => intro _; rfl
  | cons h rest ih =>
      intro hU
      have hh : strToUpper h = h := hU h (List.mem_cons_self h rest)
      have hrest := ih (fun x hx => hU x (List.mem_cons_of_mem h hx))
      unfold processEntries at hrest ⊢
      rcases hq : List.lookup h qc with _ | q
      · simp only [List.filterMap_cons, hh, hq, Option.map_none']
        exact hrest
      · simp only [List.filterMap_cons, hh, hq, Option.map_some']
        rw [List.flatMap_cons, List.filter_append, processFailedIndividual_queueDeletes,
          hrest]
        rfl

/-- C3: when _process_failed runs over T = delete union skip_blacklist
(with upper-case-normalized, duplicate-free intent sets), every hash of T
that resolves through the queue cache causes exactly one manager queue
deletion, with removeFromClient true and blocklist exactly when the hash is
not in skip_blacklist; afterwards delete and skip_blacklist are empty and
neither name_cache nor the supervisor cache contains any hash of T. -/
theorem C3_process_failed (cfg : ArrConfig) (st : ArrState)
    (hU : ∀ h ∈ listUnion st.delete st.skipBlacklist, strToUpper h = h)
    (hD : st.delete.Nodup) (hS : st.skipBlacklist.Nodup) :
    ((processFailed cfg st).1.delete = [] ∧ (processFailed cfg st).1.skipBlacklist = []) ∧
    (∀ h ∈ listUnion st.delete st.skipBlacklist,
        List.lookup h (processFailed cfg st).1.nameCache = none ∧
        List.lookup h (processFailed cfg st).1.superCache = none) ∧
    (listUnion st.delete st.skipBlacklist).Nodup ∧
    ((processFailed cfg st).2.filter Effect.isQueueDelete =
      (listUnion st.delete st.skipBlacklist).filterMap
        (fun h => (List.lookup h st.queueCache).map
          (fun q => Effect.mgrQueueDelete q true (decide (h ∉ st.skipBlacklist))))) := by
  have hSB : st.skipBlacklist.map strToUpper = st.skipBlacklist :=
    map_id_of_mem (fun x hx => hU x (mem_listUnion.mpr (Or.inr hx)))
  refine ⟨⟨?_, ?_⟩, ?_, listUnion_nodup hD hS, ?_⟩
  · unfold processFailed; split_ifs <;> rfl
  · unfold processFailed; split_ifs <;> rfl
  · intro h hT
    unfold processFailed
    split_ifs with hE
    · rw [hE] at hT; simp at hT
    · exact ⟨lookup_filter_none _ _ h hT, lookup_filter_none _ _ h hT⟩
  · unfold processFailed
    split_ifs with hE
    · rw [hE]; rfl
    · dsimp only
      rw [List.filter_append, hSB,
        processFailed_queueDelete_trace cfg st.queueCache st.requeueCache st.skipBlacklist
          (listUnion st.delete st.skipBlacklist) hU]
      have hTail : List.filter Effect.isQueueDelete
          [Effect.qbitDelete (listUnion st.delete st.skipBlacklist) true] = [] := rfl
      rw [hTail, List.append_nil]

/-- C3 witness: the failure-flush theorem applied to a concrete state with
one failed and one missing-files hash, both resolvable through the queue
cache. -/
theorem C3_witness :
    ((∀ h ∈ listUnion c3state.delete c3state.skipBlacklist, strToUpper h = h) ∧
      c3state.delete.Nodup ∧ c3state.skipBlacklist.Nodup) ∧
    (((processFailed c6cfg c3state).1.delete = [] ∧
      (processFailed c6cfg c3state).1.skipBlacklist = []) ∧
     (∀ h ∈ listUnion c3state.delete c3state.skipBlacklist,
        List.lookup h (processFailed c6cfg c3state).1.nameCache = none ∧
        List.lookup h (processFailed c6cfg c3state).1.superCache = none) ∧
     (listUnion c3state.delete c3state.skipBlacklist).Nodup ∧
     ((processFailed c6cfg c3state).2.filter Effect.isQueueDelete =
      (listUnion c3state.delete c3state.skipBlacklist).filterMap
        (fun h => (List.lookup h c3state.queueCache).map
          (fun q => Effect.mgrQueueDelete q true (decide (h ∉ c3state.skipBlacklist)))))) :=
  ⟨⟨by decide, by decide, by decide⟩,
   C3_process_failed c6cfg c3state (by decide) (by decide) (by decide)⟩

/-- C4 counterexample: the claim that no reconciler operation ever removes
a hash from sent_to_scan_hashes fails at a concrete input: when the
completed-folder enumeration is empty, _remove_empty_folders resets the set
to empty, dropping the recorded hash ABC. -/
theorem C4_counterexample :
    "ABC" ∈ ({ baseState with sentToScanHashes := ["ABC"] } : ArrState).sentToScanHashes ∧
    (removeEmptyFolders fsEnvDrained
      { baseState with sentToScanHashes := ["ABC"] }).sentToScanHashes = [] := by
  constructor
  · decide
  · rfl

/-- C4 amended: sent_to_scan_hashes grows monotonically except that
_remove_empty_folders clears the whole set when the completed-folder
enumeration is empty; while the folder stays nonempty the set is preserved
by the cleanup, the import flush only adds to it, and the classifier never
routes a torrent whose hash is in the owning reconciler's set to an import
(so such a hash is never re-submitted for scanning). -/
theorem C4_sent_to_scan_amended :
    (∀ (env : FsEnv) (st : ArrState), env.completedFolderEmptyAfter = false →
      (removeEmptyFolders env st).sentToScanHashes = st.sentToScanHashes) ∧
    (∀ (cfg : ArrConfig) (env : FsEnv) (ts : List Torrent) (st : ArrState),
      st.sentToScanHashes ⊆ (processImportsGo cfg env ts st).1.sentToScanHashes) ∧
    (∀ (cfg : ArrConfig) (timeNow : Int) (tic tsk own : List String) (acp : Bool)
        (t : Torrent), t.hash ∈ own →
      classifyTorrent cfg timeNow tic tsk own acp t ≠ TorrentAction.actPauseImport) := by
  refine ⟨?_, ?_, ?_⟩
  · intro env st h
    unfold removeEmptyFolders
    simp [h]
  · intro cfg env ts st
    exact (processImportsGo_props cfg env ts st).2.1
  · intro cfg timeNow tic tsk own acp t h
    unfold classifyTorrent
    split_ifs <;> simp_all

/-- C4 witness: the amended statement applied to a concrete nonempty folder
state and to a torrent whose hash is already recorded for scanning. -/
theorem C4_witness :
    (fsEnvPlain.completedFolderEmptyAfter = false ∧
     (removeEmptyFolders fsEnvPlain c3state).sentToScanHashes = c3state.sentToScanHashes) ∧
    (c6torrent.hash ∈ ["C6HASH"] ∧
     classifyTorrent c6cfg 1100 [] [] ["C6HASH"] false c6torrent ≠
       TorrentAction.actPauseImport) :=
  ⟨⟨by decide, C4_sent_to_scan_amended.1 fsEnvPlain c3state (by decide)⟩,
   ⟨by decide,
    C4_sent_to_scan_amended.2.2 c6cfg 1100 [] [] ["C6HASH"] false c6torrent (by decide)⟩⟩

/-- C5 counterexample: the claimed invariant search_current_year within
[StartYear, LastYear] fails: with StartYear 2000, LastYear 2020 and reverse
mode (stopping year 2026), the year starts at 2020 and after one pass with
candidates it is 2021, outside [2000, 2020]. -/
theorem C5_counterexample :
    (searchYearInit true 2000 2020).1 = 2020 ∧
    searchLoopYearStep true 2020 2026 1 false 2020 = 2021 ∧
    ¬ ((2000 : Int) ≤ 2021 ∧ (2021 : Int) ≤ 2020) := by decide

/-- C5 amended: the year starts at LastYear in reverse mode (StartYear
otherwise), advances by delta each pass, and wraps back to its starting
year past the stopping year; the interval it stays in is [LastYear,
stoppingYear] in reverse mode and [stoppingYear, StartYear] (stopping year
1900) in forward mode, evaluated at the wrap check of each iteration. -/
theorem C5_year_window_amended (startYear lastYear stop y : Int) (noFiles : Bool) :
    ((searchYearInit true startYear lastYear).1 = lastYear ∧
     (searchYearInit false startYear lastYear).1 = startYear) ∧
    (lastYear ≤ stop → lastYear ≤ y → y ≤ stop →
      lastYear ≤ searchLoopYearStep true lastYear stop 1 noFiles y ∧
      searchLoopYearStep true lastYear stop 1 noFiles y ≤ stop) ∧
    (stop ≤ startYear → stop ≤ y → y ≤ startYear →
      stop ≤ searchLoopYearStep false startYear stop (-1) noFiles y ∧
      searchLoopYearStep false startYear stop (-1) noFiles y ≤ startYear) := by
  refine ⟨⟨rfl, rfl⟩, ?_, ?_⟩
  · intro h1 h2 h3
    unfold searchLoopYearStep updateCurrentYear
    cases noFiles <;> simp <;> split_ifs <;> omega
  · intro h1 h2 h3
    unfold searchLoopYearStep updateCurrentYear
    cases noFiles <;> simp <;> split_ifs <;> omega

/-- C5 witness: the amended window theorem applied at the counterexample
instance (reverse mode, LastYear 2020, stopping year 2026, year 2020). -/
theorem C5_witness :
    ((2020 : Int) ≤ 2026 ∧ (2020 : Int) ≤ 2020 ∧ (2020 : Int) ≤ 2026) ∧
    (2020 ≤ searchLoopYearStep true 2020 2026 1 false 2020 ∧
     searchLoopYearStep true 2020 2026 1 false 2020 ≤ 2026) :=
  ⟨by decide,
   (C5_year_window_amended 2000 2020 2026 2020 false).2.1 (by decide) (by decide) (by decide)⟩

/-- C6 counterexample: on the literal file-priority-mask scenario the
recorded change_priority list is [0], not the claimed [0, 2]: the record
happens inside the file scan, guarded by hash-not-already-recorded, so only
the marks made up to the first recording survive. The hash is still not
deleted. -/
theorem C6_counterexample :
    List.lookup "C6HASH" (processOneTorrent c6cfg 1100 baseState c6torrent).changePriority
      = some [0] ∧
    some [0] ≠ some ([0, 2] : List Nat) ∧
    "C6HASH" ∉ (processOneTorrent c6cfg 1100 baseState c6torrent).delete := by decide

/-- C6 amended: the scenario classifies into the file filter, which marks
exactly files 0 and 2, records only the prefix [0] into change_priority
(first-record-wins inside the loop) and does not add the hash to delete. -/
theorem C6_file_mask_amended :
    classifyTorrent c6cfg 1100 [] [] [] false c6torrent =
      TorrentAction.actFileFilter (fileFilter c6cfg false c6files) ∧
    (fileFilter c6cfg false c6files).removeFiles = [0, 2] ∧
    (fileFilter c6cfg false c6files).recorded = some [0] ∧
    (fileFilter c6cfg false c6files).addDelete = false := by decide

/-- C7: with search mode on, maybe_do_search is a three-way function: an
uncompleted pending row for the entry returns already-queued (some true)
with no insertion and no command; a full in-flight cap returns some false
with no insertion and no command, and the loop driver then retries the same
entry after its 30-second sleep; otherwise exactly one uncompleted row is
inserted and exactly one per-variant search command posted for the entry. -/
theorem C7_maybe_do_search_three_way (variantSonarr : Bool) (limit : Nat)
    (commands : List CommandRow) (queueTable : List (Nat × Bool)) (entryId : Nat) :
    ((∃ r ∈ queueTable, r.1 = entryId ∧ r.2 = false) →
      maybeDoSearch variantSonarr true limit commands queueTable entryId =
        (some true, queueTable, [])) ∧
    (¬ (∃ r ∈ queueTable, r.1 = entryId ∧ r.2 = false) →
      limit ≤ arrDbQueryCommandsCount true commands →
      maybeDoSearch variantSonarr true limit commands queueTable entryId =
        (some false, queueTable, []) ∧ searchLoopRetries (some false) = true) ∧
    (¬ (∃ r ∈ queueTable, r.1 = entryId ∧ r.2 = false) →
      arrDbQueryCommandsCount true commands < limit →
      maybeDoSearch variantSonarr true limit commands queueTable entryId =
        (some true, queueTable ++ [(entryId, false)],
         [if variantSonarr then Effect.mgrSearchCommand "EpisodeSearch" [entryId]
          else Effect.mgrSearchCommand "MoviesSearch" [entryId]])) := by
  have hfilt : (queueTable.filter (fun r => r.2 = false ∧ r.1 = entryId) ≠ []) ↔
      (∃ r ∈ queueTable, r.1 = entryId ∧ r.2 = false) := by
    rw [Ne, List.filter_eq_nil_iff]
    push_neg
    constructor
    · rintro ⟨r, hr, hp⟩
      simp only [decide_eq_true_eq] at hp
      exact ⟨r, hr, hp.2, hp.1⟩
    · rintro ⟨r, hr, h1, h2⟩
      exact ⟨r, hr, by simp [h1, h2]⟩
  refine ⟨?_, ?_, ?_⟩
  · intro hq
    unfold maybeDoSearch
    rw [if_neg (by simp), if_pos (hfilt.mpr hq)]
  · intro hq hlim
    refine ⟨?_, rfl⟩
    unfold maybeDoSearch
    rw [if_neg (by simp), if_neg (fun hne => hq (hfilt.mp hne)), if_pos hlim]
  · intro hq hlim
    unfold maybeDoSearch
    rw [if_neg (by simp), if_neg (fun hne => hq (hfilt.mp hne)),
      if_neg (Nat.not_le.mpr hlim)]

/-- C7 witness: the three-way theorem applied where the only pending row is
completed and the cap is free: one row inserted, one EpisodeSearch posted. -/
theorem C7_witness :
    (¬ (∃ r ∈ ([(5, true)] : List (Nat × Bool)), r.1 = 7 ∧ r.2 = false) ∧
     arrDbQueryCommandsCount true [] < 5) ∧
    maybeDoSearch true true 5 [] [(5, true)] 7 =
      (some true, [(5, true), (7, false)],
       [Effect.mgrSearchCommand "EpisodeSearch" [7]]) :=
  ⟨⟨by decide, by decide⟩,
   (C7_maybe_do_search_three_way true 5 [] [(5, true)] 7).2.2 (by decide) (by decide)⟩

/-- A caught construction error leaves the supervisor accumulator of
build_arr_instances unchanged. -/
theorem buildStep_error {m : MgrBuildState} {s : SectionCfg} {e : InitError}
    (h : arrInit m s = Except.error e) : buildStep m s = m := by
  unfold buildStep
  split_ifs
  · rw [h]
  · rfl

/-- C8 counterexample: a duplicate URI raises EnvironmentError inside
Arr.__init__, but build_arr_instances catches it: supervisor construction
completes normally past the error, registering both the earlier and the
later valid sections plus the two placeholder categories. -/
theorem C8_counterexample :
    arrInit (buildStep { groups := [], uris := [], managedCategories := [] } c8secA) c8secB
      = Except.error InitError.dupUri ∧
    buildArrInstances "failed" "recheck" [c8secA, c8secB, c8secC] =
      { groups := ["sonarr-a", "radarr-c"], uris := ["http://a", "http://c"]
        managedCategories := ["sonarr-a", "radarr-c", "failed", "recheck"] } :=
  ⟨rfl, by decide⟩

/-- C8 amended: a configuration error in a section (duplicate group,
duplicate URI, missing completed folder, or a disabled section) is caught
by build_arr_instances: the offending section is skipped and supervisor
construction completes exactly as if the section were absent. -/
theorem C8_config_error_skipped (pre post : List SectionCfg) (s : SectionCfg)
    (fc rc : String)
    (herr : ∃ e, arrInit (pre.foldl buildStep
      { groups := [], uris := [], managedCategories := [] }) s = Except.error e) :
    buildArrInstances fc rc (pre ++ s :: post) = buildArrInstances fc rc (pre ++ post) := by
  obtain ⟨e, he⟩ := herr
  unfold buildArrInstances
  rw [List.foldl_append, List.foldl_append, List.foldl_cons, buildStep_error he]

/-- C8 witness: skipping the duplicate-URI section c8secB yields the same
supervisor state as a configuration without it. -/
theorem C8_witness :
    (∃ e, arrInit ([c8secA].foldl buildStep
      { groups := [], uris := [], managedCategories := [] }) c8secB = Except.error e) ∧
    buildArrInstances "failed" "recheck" ([c8secA] ++ c8secB :: [c8secC]) =
      buildArrInstances "failed" "recheck" ([c8secA] ++ [c8secC]) :=
  ⟨⟨InitError.dupUri, rfl⟩,
   C8_config_error_skipped [c8secA] [c8secC] c8secB "failed" "recheck"
     ⟨InitError.dupUri, rfl⟩⟩

/-- Pausing commutes with overriding the search_missing flag. -/
theorem processPaused_sm (b : Bool) (st : ArrState) :
    processPaused { st with searchMissing := b } =
      ({ (processPaused st).1 with searchMissing := b }, (processPaused st).2) := by
  unfold processPaused
  by_cases h : st.pause = [] <;> simp [h]

/-- Rechecking commutes with overriding the search_missing flag. -/
theorem processErrored_sm (b : Bool) (st : ArrState) :
    processErrored { st with searchMissing := b } =
      ({ (processErrored st).1 with searchMissing := b }, (processErrored st).2) := by
  unfold processErrored
  by_cases h : st.recheck = [] <;> simp [h]

/-- The file-priority drain commutes with overriding search_missing. -/
theorem processFilePriority_sm (b : Bool) (st : ArrState) :
    processFilePriority { st with searchMissing := b } =
      ({ (processFilePriority st).1 with searchMissing := b },
       (processFilePriority st).2) := rfl

/-- The import loop commutes with overriding search_missing. -/
theorem processImportsGo_sm (cfg : ArrConfig) (env : FsEnv) (b : Bool) :
    ∀ (ts : List Torrent) (st : ArrState),
      processImportsGo cfg env ts { st with searchMissing := b } =
        ({ (processImportsGo cfg env ts st).1 with searchMissing := b },
         (processImportsGo cfg env ts st).2) := by
  intro ts
  induction ts with
  | nil => intro st; rfl
  | cons t rest ih =>
      intro st
      unfold processImportsGo
      by_cases h1 : t.hash ∈ st.sentToScan
      · simp only [if_pos h1]
        exact ih st
      · simp only [if_neg h1]
        by_cases h2 : env.pathExists (env.resolvePath t.contentPath) = false
        · simp only [if_pos h2]
          exact ih { st with skipBlacklist := insertUniq st.skipBlacklist (strToUpper t.hash) }
        · simp only [if_neg h2]
          by_cases h3 : env.resolvePath t.contentPath ∈ st.sentToScan
          · simp only [if_pos h3]
            exact ih st
          · simp only [if_neg h3]
            rw [ih { st with
                sentToScanHashes := insertUniq st.sentToScanHashes t.hash
                sentToScan := insertUniq st.sentToScan (env.resolvePath t.contentPath) }]

/-- The import step commutes with overriding search_missing. -/
theorem processImports_sm (cfg : ArrConfig) (env : FsEnv) (b : Bool) (st : ArrState) :
    processImports cfg env { st with searchMissing := b } =
      ({ (processImports cfg env st).1 with searchMissing := b },
       (processImports cfg env st).2) := by
  unfold processImports
  by_cases h : st.importTorrents = []
  · simp [h]
  · simp only [if_neg h]
    have hgo := processImportsGo_sm cfg env b st.importTorrents { st with needsCleanup := true }
    dsimp only at hgo
    rw [hgo]

/-- The failure flush commutes with overriding search_missing. -/
theorem processFailed_sm (cfg : ArrConfig) (b : Bool) (st : ArrState) :
    processFailed cfg { st with searchMissing := b } =
      ({ (processFailed cfg st).1 with searchMissing := b },
       (processFailed cfg st).2) := by
  unfold processFailed
  by_cases h : listUnion st.delete st.skipBlacklist = [] <;> simp [h]

/-- Folder cleanup commutes with overriding search_missing. -/
theorem folderCleanup_sm (cfg : ArrConfig) (env : FsEnv) (b : Bool) (st : ArrState) :
    folderCleanup cfg env { st with searchMissing := b } =
      { folderCleanup cfg env st with searchMissing := b } := by
  unfold folderCleanup removeEmptyFolders
  by_cases h1 : cfg.autoDelete = false
  · simp [h1]
  · by_cases h2 : st.needsCleanup = false <;> simp [h1, h2]

/-- The whole tick flush commutes with overriding search_missing: the flag
is never read by the torrent half. -/
theorem process_sm (cfg : ArrConfig) (env : FsEnv) (b : Bool) (st : ArrState) :
    process cfg env { st with searchMissing := b } =
      ({ (process cfg env st).1 with searchMissing := b }, (process cfg env st).2) := by
  unfold process
  dsimp only
  rw [processPaused_sm b st]
  dsimp only
  rw [processErrored_sm b (processPaused st).1]
  dsimp only
  rw [processFilePriority_sm b (processErrored (processPaused st).1).1]
  dsimp only
  rw [processImports_sm cfg env b
    (processFilePriority (processErrored (processPaused st).1).1).1]
  dsimp only
  rw [processFailed_sm cfg b (processImports cfg env
    (processFilePriority (processErrored (processPaused st).1).1).1).1]
  dsimp only
  rw [folderCleanup_sm cfg env b (processFailed cfg (processImports cfg env
    (processFilePriority (processErrored (processPaused st).1).1).1).1).1]

/-- C9: when setup has not run, search is enabled and the manager catalog
file does not exist, register_search_mode downgrades search_missing to
false, run_search_loop then returns immediately with no effect on store or
manager, and the torrent flush is unaffected by the search_missing flag. -/
theorem C9_missing_catalog_downgrade (cfg : ArrConfig) (env : FsEnv) (st : ArrState)
    (h1 : st.searchSetupCompleted = false) (h2 : st.searchMissing = true) :
    (registerSearchMode false st).searchMissing = false ∧
    runSearchLoopStart false st =
      (SearchLoopStart.returnedNone, registerSearchMode false st, []) ∧
    (∀ b : Bool,
      (process cfg env { st with searchMissing := b }).2 = (process cfg env st).2) := by
  have hreg : (registerSearchMode false st).searchMissing = false := by
    unfold registerSearchMode
    rw [if_neg (by simp [h1]), if_neg (by simp [h2])]
    rw [if_pos rfl]
  refine ⟨hreg, ?_, ?_⟩
  · unfold runSearchLoopStart
    rw [if_pos hreg]
  · intro b
    rw [process_sm]

/-- C9 witness: the downgrade theorem applied to a fresh state with search
enabled and a missing catalog file. -/
theorem C9_witness :
    (({ baseState with searchMissing := true } : ArrState).searchSetupCompleted = false ∧
     ({ baseState with searchMissing := true } : ArrState).searchMissing = true) ∧
    ((registerSearchMode false { baseState with searchMissing := true }).searchMissing = false ∧
     runSearchLoopStart false { baseState with searchMissing := true } =
       (SearchLoopStart.returnedNone,
        registerSearchMode false { baseState with searchMissing := true }, []) ∧
     (∀ b : Bool,
       (process c6cfg fsEnvPlain
         { { baseState with searchMissing := true } with searchMissing := b }).2 =
       (process c6cfg fsEnvPlain { baseState with searchMissing := true }).2)) :=
  ⟨⟨by decide, by decide⟩,
   C9_missing_catalog_downgrade c6cfg fsEnvPlain
     { baseState with searchMissing := true } (by decide) (by decide)⟩

/-- The file-priority drain emits no call for a hash the supervisor
name_cache does not resolve. -/
theorem filePriorityEffects_no_hash (nc : List (String × String)) (h : String)
    (hname : List.lookup h nc = none) :
    ∀ (l : List (String × List Nat)) (fids : List Nat) (p : Nat),
      Effect.qbitFilePriority h fids p ∉ filePriorityEffects nc l := by
  intro l
  induction l with
  | nil => intro fids p hin; simp [filePriorityEffects] at hin
  | cons q rest ih =>
      intro fids p hin
      obtain ⟨k, fs⟩ := q
      simp only [filePriorityEffects, List.mem_append] at hin
      rcases hin with hin | hin
      · rcases hl : List.lookup k nc with _ | n <;> rw [hl] at hin
        · simp at hin
        · by_cases hn : n = ""
          · simp [hn] at hin
          · simp [hn] at hin
            simp_all
      · exact ih fids p hin

/-- C10: an entry of change_priority whose hash is absent from the
supervisor name_cache produces no file-priority call to the download
client, yet every entry, this one included, is removed from
change_priority: the deprioritization intent is silently dropped. -/
theorem C10_file_priority_dropped (st : ArrState) (h : String) (fs : List Nat)
    (_hmem : (h, fs) ∈ st.changePriority)
    (hname : List.lookup h st.nameCache = none) :
    (processFilePriority st).1.changePriority = [] ∧
    (∀ (fids : List Nat) (p : Nat),
      Effect.qbitFilePriority h fids p ∉ (processFilePriority st).2) := by
  refine ⟨rfl, ?_⟩
  intro fids p
  exact filePriorityEffects_no_hash st.nameCache h hname st.changePriority fids p

/-- C10 witness: the dropped-intent theorem applied to a concrete state
with one change_priority entry and an empty name_cache. -/
theorem C10_witness :
    ((("GHOST", [1, 2]) ∈
        ({ baseState with changePriority := [("GHOST", [1, 2])] } : ArrState).changePriority) ∧
     List.lookup "GHOST"
        ({ baseState with changePriority := [("GHOST", [1, 2])] } : ArrState).nameCache = none) ∧
    ((processFilePriority
        { baseState with changePriority := [("GHOST", [1, 2])] }).1.changePriority = [] ∧
     (∀ (fids : List Nat) (p : Nat),
       Effect.qbitFilePriority "GHOST" fids p ∉
         (processFilePriority { baseState with changePriority := [("GHOST", [1, 2])] }).2)) :=
  ⟨⟨by decide, by decide⟩,
   C10_file_priority_dropped { baseState with changePriority := [("GHOST", [1, 2])] }
     "GHOST" [1, 2] (by decide) (by decide)⟩

end Qbitrr
